import Mathlib

set_option maxRecDepth 8192

/-!
Shallow embedding of `nerfstudio.py` (class `NerfTrainingLogger` and the
module-level `pointcloud_params` table).

The repository code is an orchestration wrapper: it validates paths, assembles
command lines, spawns one child process at a time, tees the child's output to
console and a log file, and records parameter snapshots.  The embedding makes
the environment explicit as a `World` oracle (filesystem queries, the
`CONDA_DEFAULT_ENV` variable, the outcome of each spawned command, which paths
fail to open, directory listings, and the measured duration), and each Python
function becomes a Lean function from a `World` and its arguments to a result
together with the ordered trace of observable effects.
-/

namespace Nerfstudio

/-- Outcome of `subprocess.Popen` plus `process.wait()` for one command:
either the spawn itself raises (e.g. `FileNotFoundError`, carrying the
exception text) before any child runs, or a child runs to termination with an
exit status and a list of combined stdout/stderr lines. -/
inductive SpawnOutcome where
  | raises (msg : String)
  | exits (code : Int) (output : List String)
deriving DecidableEq

/-- Result of a Python call in this embedding: a normal return, an uncaught
exception propagating past the call (`raised`, with the exception text), or
interpreter termination via `exit` (`exited`). -/
inductive PyResult (α : Type) where
  | ret (a : α)
  | raised (msg : String)
  | exited (code : Int)
deriving DecidableEq

/-- The JSON parameter snapshot assembled by `_execute_training`
(`params_data`).  `duration_seconds` and `return_code` are `none` until the
post-run update adds them; wall-clock duration is modelled as the tick count
`World.duration`. -/
structure ParamsData where
  timestamp : String
  method : String
  base_dir : String
  experiment_name : String
  config : List String
  conda_environment : String
  command : String
  duration_seconds : Option Nat := none
  return_code : Option Int := none
deriving DecidableEq

/-- Observable effects of one run, in order.  `openTrunc` is `open(path, "w")`
(truncating any prior content); `append` is a write into the file (whether it
was opened in `"w"` or `"a"` mode); `spawn` records the argv list handed to
`subprocess.Popen` and whether `shell=True` was passed; `writeParams` is a
`json.dump` of the parameter snapshot; `msg` is a console print. -/
inductive Event where
  | msg (s : String)
  | mkdirs (dir : String)
  | openTrunc (path : String)
  | append (path : String) (s : String)
  | spawn (cmd : List String) (shell : Bool)
  | writeParams (path : String) (d : ParamsData)
deriving DecidableEq

/-- Environment oracle for one run: which paths exist, the value of
`CONDA_DEFAULT_ENV`, what each spawned command does, which paths fail to open
for writing (persistently, so a retry in append mode fails the same way),
directory listings, and the wall-clock tick count measured around the child. -/
structure World where
  pathExists : String → Bool
  condaEnv : String
  spawn : List String → SpawnOutcome
  openFails : String → Bool
  listdir : String → List String
  duration : Nat

/-- Python's `"=" * 50` separator line. -/
def sep50 : String := String.mk (List.replicate 50 '=')

/-- Python's `"=" * 60` separator line. -/
def sep60 : String := String.mk (List.replicate 60 '=')

/-- `" ".join(cmd)`. -/
def joinSpace (cmd : List String) : String := String.intercalate " " cmd

/-- Python's `str()` on a bool renders `True` / `False`. -/
def pyStrBool (b : Bool) : String := if b then "True" else "False"

/-- Helper for `pySplit`: walks the characters with the (reversed) current
token, splitting at whitespace and discarding empty pieces. -/
def pySplitAux : List Char → List Char → List String
  | [], cur => if cur.isEmpty then [] else [String.mk cur.reverse]
  | c :: cs, cur =>
    if c.isWhitespace then
      if cur.isEmpty then pySplitAux cs []
      else String.mk cur.reverse :: pySplitAux cs []
    else pySplitAux cs (c :: cur)

/-- Python's `str.split()` with no argument: split on runs of whitespace,
discarding empty pieces. -/
def pySplit (s : String) : List String := pySplitAux s.data []

/-- Python's `str.startswith(pre)`, read off the character lists. -/
def pyStartsWith (s pre : String) : Bool := pre.data.isPrefixOf s.data

/-- Python's `str.endswith(suf)`, read off the character lists. -/
def pyEndsWith (s suf : String) : Bool := suf.data.reverse.isPrefixOf s.data.reverse

/-- POSIX `os.path.join(a, b)` for the two-argument uses in this file: an
absolute `b` replaces `a`; otherwise a separator is inserted unless `a` is
empty or already ends with one.  Absoluteness and the trailing separator are
read off the character lists. -/
def pyJoin (a b : String) : String :=
  if b.data.head? = some '/' then b
  else if a = "" then b
  else if a.data.getLast? = some '/' then a ++ b
  else a ++ "/" ++ b

/-- `os.path.dirname`: the path up to, not including, the final separator
(and `""` when there is none).  The root case, where Python keeps the leading
slash, never arises for the names used here; the value only feeds console
text. -/
def dirname (p : String) : String :=
  match p.data.reverse.dropWhile (fun c => c ≠ '/') with
  | [] => ""
  | _ :: rest => String.mk rest.reverse

/-- Exception text for a failed `open(path, ...)` (the `OSError` rendering). -/
def openErr (p : String) : String := "could not open " ++ p

/-- `self.conda_env`, fixed in `__init__`. -/
def conda_env : String := "nerfstudio"

/-- `check_conda_environment`: compares `CONDA_DEFAULT_ENV` with the expected
environment name, printing a diagnostic either way. -/
def check_conda_environment (w : World) : Bool × List Event :=
  if w.condaEnv = conda_env then
    (true, [.msg ("Already in " ++ conda_env ++ " environment")])
  else
    (false,
     [.msg ("Current environment: " ++ w.condaEnv ++ ", need to switch to " ++ conda_env)])

/-- `get_conda_command_prefix` (named `get_conda_command_args` here): returns
`[]` when already in the right environment, and otherwise panics via
`exit(-1)` — the `conda run` prefix list after the `exit` call is dead code. -/
def get_conda_command_args (w : World) : PyResult (List String) × List Event :=
  let r := check_conda_environment w
  if r.1 then (.ret [], r.2)
  else (.exited (-1),
        r.2 ++ [.msg "PANIC! You are not in the nerfstudio conda environment!"])

/-- The `ns-export gaussian-splat` argv assembled by `export_gaussian_splat`. -/
def gaussianExportCmd (config_path output_dir : String) : List String :=
  ["ns-export", "gaussian-splat", "--load-config", config_path, "--output-dir", output_dir]

/-- The `ns-export pointcloud` argv assembled by `export_pointcloud`. -/
def pointcloudExportCmd (config_path output_dir : String) (num_points : Nat)
    (remove_outliers : Bool) (normal_method : String) (save_world_frame : Bool) :
    List String :=
  ["ns-export", "pointcloud",
   "--load-config", config_path,
   "--output-dir", output_dir,
   "--num-points", toString num_points,
   "--remove-outliers", pyStrBool remove_outliers,
   "--normal-method", normal_method,
   "--save-world-frame", pyStrBool save_world_frame]

/-- The argv the spawned program actually receives, following POSIX
`subprocess.Popen` semantics.  With `shell=True` and a LIST argument, only the
first element is the command string run via the shell's `-c` (here
`/bin/bash`); the remaining list elements become positional parameters of the
shell itself, not arguments of the program.  The command strings used in this
file contain no shell metacharacters, so the shell word-splits the first
element and executes the result.  With `shell=False` the list is the argv. -/
def deliveredArgv (cmd : List String) (shell : Bool) : List String :=
  if shell then
    match cmd with
    | [] => []
    | c :: _ => pySplit c
  else cmd

/-- The log-file name used by `export_gaussian_splat`. -/
def gaussian_log_file (output_dir timestamp : String) : String :=
  pyJoin output_dir ("gaussian_export_" ++ timestamp ++ ".log")

/-- The log-file name used by `export_pointcloud`. -/
def pointcloud_log_file (output_dir timestamp : String) : String :=
  pyJoin output_dir ("pointcloud_export_" ++ timestamp ++ ".log")

/-- The streaming loop `for line in process.stdout:` — each output line is
printed to the console and written (flushed) to the log file. -/
def teeEvents (log_file : String) (out : List String) : List Event :=
  out.flatMap fun line => [.msg line, .append log_file line]

/-- `NerfTrainingLogger.export_gaussian_splat`, with the run's formatted
timestamp passed in for the `datetime.now().strftime(...)` call.  Returns the
Python result together with the ordered trace of observable effects.  Note the
source passes `shell=True` (with `executable="/bin/bash"`) to `Popen` here. -/
def export_gaussian_splat (w : World) (timestamp config_path output_dir : String) :
    PyResult Bool × List Event :=
  if w.pathExists config_path = false then
    (.ret false, [.msg ("Config file not found: " ++ config_path)])
  else
    let export_cmd := gaussianExportCmd config_path output_dir
    let pre := get_conda_command_args w
    match pre.1 with
    | .raised m => (.raised m, [Event.mkdirs output_dir] ++ pre.2)
    | .exited c => (.exited c, [Event.mkdirs output_dir] ++ pre.2)
    | .ret conda_args =>
      let cmd := if conda_args.isEmpty then export_cmd else conda_args ++ export_cmd
      let log_file := gaussian_log_file output_dir timestamp
      let ev0 := [Event.mkdirs output_dir] ++ pre.2 ++
        [.msg "Starting gaussian splat export...",
         .msg ("Config: " ++ config_path),
         .msg ("Output directory: " ++ output_dir),
         .msg ("Command: " ++ joinSpace cmd)]
      if w.openFails log_file then
        -- `open(log_file, "w")` raises inside the `try`; the handler prints,
        -- then its own `open(log_file, "a")` raises again and propagates.
        (.raised (openErr log_file),
         ev0 ++ [.msg ("Gaussian splat export failed: " ++ openErr log_file)])
      else
        let header := "=== GAUSSIAN SPLAT EXPORT START ===\n" ++
          "Command: " ++ joinSpace cmd ++ "\n" ++
          "Config: " ++ config_path ++ "\n" ++
          "Output Directory: " ++ output_dir ++ "\n" ++
          "Conda Environment: " ++ conda_env ++ "\n" ++
          sep50 ++ "\n\n"
        let ev1 := ev0 ++ [Event.openTrunc log_file, Event.append log_file header]
        match w.spawn cmd with
        | .raises m =>
          (.ret false,
           ev1 ++ [.msg ("Gaussian splat export failed: " ++ m),
                   .append log_file ("\nEXCEPTION: " ++ m ++ "\n")])
        | .exits code out =>
          let footer := "\n" ++ sep50 ++ "\n" ++
            "Duration: " ++ toString w.duration ++ "s\n" ++
            "Return code: " ++ toString code ++ "\n"
          let ev2 := ev1 ++ [Event.spawn cmd true] ++ teeEvents log_file out ++
            [.append log_file footer,
             .msg ("\nGaussian splat export completed in " ++ toString w.duration ++ "s"),
             .msg ("Export logs saved to: " ++ log_file)]
          if code = 0 then
            let ply_files := (w.listdir output_dir).filter (fun f => pyEndsWith f ".ply")
            (.ret (code == 0),
             ev2 ++ [.msg ("Gaussian splat successfully exported to: " ++ output_dir)] ++
               if ply_files.isEmpty then [] else
                 [.msg ("Generated PLY files: " ++ toString ply_files)])
          else
            (.ret (code == 0), ev2)

/-- `NerfTrainingLogger.export_pointcloud`, with the run's formatted timestamp
passed in for the `datetime.now().strftime(...)` call.  Unlike the
gaussian-splat variant, `Popen` is called without `shell=True`. -/
def export_pointcloud (w : World) (timestamp config_path output_dir : String)
    (num_points : Nat) (remove_outliers : Bool) (normal_method : String)
    (save_world_frame : Bool) : PyResult Bool × List Event :=
  if w.pathExists config_path = false then
    (.ret false, [.msg ("Config file not found: " ++ config_path)])
  else
    let export_cmd := pointcloudExportCmd config_path output_dir num_points
      remove_outliers normal_method save_world_frame
    let pre := get_conda_command_args w
    match pre.1 with
    | .raised m => (.raised m, [Event.mkdirs output_dir] ++ pre.2)
    | .exited c => (.exited c, [Event.mkdirs output_dir] ++ pre.2)
    | .ret conda_args =>
      let cmd := if conda_args.isEmpty then export_cmd else conda_args ++ export_cmd
      let log_file := pointcloud_log_file output_dir timestamp
      let ev0 := [Event.mkdirs output_dir] ++ pre.2 ++
        [.msg "Starting pointcloud export...",
         .msg ("Config: " ++ config_path),
         .msg ("Output directory: " ++ output_dir),
         .msg ("Number of points: " ++ toString num_points),
         .msg ("Remove outliers: " ++ pyStrBool remove_outliers),
         .msg ("Normal method: " ++ normal_method),
         .msg ("Save world frame: " ++ pyStrBool save_world_frame),
         .msg ("Command: " ++ joinSpace cmd)]
      if w.openFails log_file then
        (.raised (openErr log_file),
         ev0 ++ [.msg ("Pointcloud export failed: " ++ openErr log_file)])
      else
        let header := "=== POINTCLOUD EXPORT START ===\n" ++
          "Command: " ++ joinSpace cmd ++ "\n" ++
          "Config: " ++ config_path ++ "\n" ++
          "Output Directory: " ++ output_dir ++ "\n" ++
          "Number of points: " ++ toString num_points ++ "\n" ++
          "Remove outliers: " ++ pyStrBool remove_outliers ++ "\n" ++
          "Normal method: " ++ normal_method ++ "\n" ++
          "Save world frame: " ++ pyStrBool save_world_frame ++ "\n" ++
          "Conda Environment: " ++ conda_env ++ "\n" ++
          sep50 ++ "\n\n"
        let ev1 := ev0 ++ [Event.openTrunc log_file, Event.append log_file header]
        match w.spawn cmd with
        | .raises m =>
          (.ret false,
           ev1 ++ [.msg ("Pointcloud export failed: " ++ m),
                   .append log_file ("\nEXCEPTION: " ++ m ++ "\n")])
        | .exits code out =>
          let footer := "\n" ++ sep50 ++ "\n" ++
            "Duration: " ++ toString w.duration ++ "s\n" ++
            "Return code: " ++ toString code ++ "\n"
          let ev2 := ev1 ++ [Event.spawn cmd false] ++ teeEvents log_file out ++
            [.append log_file footer,
             .msg ("\nPointcloud export completed in " ++ toString w.duration ++ "s"),
             .msg ("Export logs saved to: " ++ log_file)]
          if code = 0 then
            let ply_files := (w.listdir output_dir).filter (fun f => pyEndsWith f ".ply")
            (.ret (code == 0),
             ev2 ++ [.msg ("Pointcloud successfully exported to: " ++ output_dir)] ++
               if ply_files.isEmpty then [] else
                 [.msg ("Generated PLY files: " ++ toString ply_files)])
          else
            (.ret (code == 0), ev2)

/-- `NerfTrainingLogger._execute_training`.  The parameter snapshot is written
before the `try` block (so a failure opening `params_file` propagates), the
log file is opened inside it (so open/spawn failures are caught and collapse
to a `False` return without any marker written to the log). -/
def _execute_training (w : World) (cmd : List String) (log_file params_file : String)
    (method base_dir experiment_name : String) (config : List String)
    (timestamp : String) : PyResult Bool × List Event :=
  let params_data : ParamsData :=
    { timestamp := timestamp, method := method, base_dir := base_dir,
      experiment_name := experiment_name, config := config,
      conda_environment := conda_env, command := joinSpace cmd }
  if w.openFails params_file then
    (.raised (openErr params_file), [])
  else
    let ev0 := [Event.writeParams params_file params_data,
      Event.msg ("Starting training: " ++ method),
      Event.msg ("Command: " ++ joinSpace cmd),
      Event.msg ("Logs will be saved to: " ++ dirname log_file)]
    if w.openFails log_file then
      (.ret false, ev0 ++ [.msg ("Training execution failed: " ++ openErr log_file)])
    else
      let header := "=== TRAINING START ===\n" ++
        "Command: " ++ joinSpace cmd ++ "\n" ++
        "Conda Environment: " ++ conda_env ++ "\n" ++
        sep50 ++ "\n\n"
      let ev1 := ev0 ++ [Event.openTrunc log_file, Event.append log_file header]
      match w.spawn cmd with
      | .raises m => (.ret false, ev1 ++ [.msg ("Training execution failed: " ++ m)])
      | .exits code out =>
        let footer := "\n" ++ sep50 ++ "\n" ++
          "Duration: " ++ toString w.duration ++ "s\n" ++
          "Return code: " ++ toString code ++ "\n"
        (.ret (code == 0),
         ev1 ++ [Event.spawn cmd false] ++ teeEvents log_file out ++
           [.append log_file footer,
            .writeParams params_file
              { params_data with duration_seconds := some w.duration,
                                 return_code := some code },
            .msg ("\nCompleted in " ++ toString w.duration ++ "s"),
            .msg ("Logs saved to: " ++ dirname log_file)])

/-- `NerfTrainingLogger._try_conda_run`: obtains the conda launcher arguments
(empty when already in the right environment, otherwise the interpreter has
exited) and delegates to `_execute_training`. -/
def _try_conda_run (w : World) (ns_cmd : List String) (log_file params_file : String)
    (method base_dir experiment_name : String) (config : List String)
    (timestamp : String) : PyResult Bool × List Event :=
  let pre := get_conda_command_args w
  match pre.1 with
  | .raised m => (.raised m, pre.2)
  | .exited c => (.exited c, pre.2)
  | .ret conda_args =>
    let cmd := if conda_args.isEmpty then ns_cmd else conda_args ++ ns_cmd
    let r := _execute_training w cmd log_file params_file method base_dir
      experiment_name config timestamp
    (r.1, pre.2 ++ r.2)

/-- The partition loop of `train_simple`: each override string is tokenized
with `param.split()`; overrides that `startswith("--downscale-factor")`
accumulate into `dataparser_params` (first component), the rest into
`general_config` (second component). -/
def splitParams (config : List String) : List String × List String :=
  config.foldl
    (fun acc param =>
      if pyStartsWith param "--downscale-factor" then (acc.1 ++ pySplit param, acc.2)
      else (acc.1, acc.2 ++ pySplit param))
    ([], [])

/-- The `ns-train` argv assembled by `train_simple`: fixed flags, then the
general overrides, then the dataparser token, then the dataparser-specific
overrides. -/
def nsTrainCmd (method data_path experiment_name : String) (quit_viewer : Bool)
    (config : List String) (dataparser : String) : List String :=
  let parts := splitParams config
  ["ns-train", method,
   "--data", data_path,
   "--method-name", method,
   "--experiment_name", experiment_name,
   "--output-dir", data_path,
   "--viewer.quit-on-train-completion", pyStrBool quit_viewer,
   "--logging.steps-per-log", "100",
   "--logging.local-writer.max-log-size", "0"]
  ++ parts.2 ++ [dataparser] ++ parts.1

/-- The `<base_dir>/nerf/nerf_data` path convention of `train_simple`. -/
def dataPath (base_dir : String) : String := pyJoin base_dir "nerf/nerf_data"

/-- The per-run directory `<data_path>/<experiment_name>/<method>`. -/
def experimentLogDir (base_dir experiment_name method : String) : String :=
  pyJoin (pyJoin (dataPath base_dir) experiment_name) method

/-- The trained-model descriptor `<experiment_log_dir>/run/config.yml`
consumed by the export dispatch. -/
def runConfigPath (base_dir experiment_name method : String) : String :=
  pyJoin (pyJoin (experimentLogDir base_dir experiment_name method) "run") "config.yml"

/-- The timestamped training log file of `train_simple`. -/
def trainingLogFile (base_dir experiment_name method ts : String) : String :=
  pyJoin (experimentLogDir base_dir experiment_name method) ("training_" ++ ts ++ ".log")

/-- The timestamped parameter-snapshot file of `train_simple`. -/
def trainingParamsFile (base_dir experiment_name method ts : String) : String :=
  pyJoin (experimentLogDir base_dir experiment_name method) ("params_" ++ ts ++ ".json")

/-- The fields of the module-level `pointcloud_params` table. -/
structure PointcloudParams where
  num_points : Nat
  remove_outliers : Bool
  normal_method : String
  save_world_frame : Bool
deriving DecidableEq

/-- The module-level `pointcloud_params` table. -/
def pointcloud_params : PointcloudParams :=
  { num_points := 1000000, remove_outliers := true,
    normal_method := "open3d", save_world_frame := false }

/-- `NerfTrainingLogger.train_simple`.  The single formatted timestamp taken
at the top models the `datetime.now()` calls of this run; no claim below
depends on the export step drawing a slightly later timestamp for its own
log-file name. -/
def train_simple (w : World) (timestamp method base_dir experiment_name : String)
    (config : List String) (dataparser : String) (export_geometry quit_viewer : Bool) :
    PyResult Bool × List Event :=
  let data_path := dataPath base_dir
  let ns_cmd := nsTrainCmd method data_path experiment_name quit_viewer config dataparser
  let experiment_log_dir := experimentLogDir base_dir experiment_name method
  let log_file := trainingLogFile base_dir experiment_name method timestamp
  let params_file := trainingParamsFile base_dir experiment_name method timestamp
  let r := _try_conda_run w ns_cmd log_file params_file method base_dir
    experiment_name config timestamp
  let ev0 := [Event.mkdirs experiment_log_dir] ++ r.2
  match r.1 with
  | .raised m => (.raised m, ev0)
  | .exited c => (.exited c, ev0)
  | .ret training_success =>
    if training_success && export_geometry then
      let evB := ev0 ++ [Event.msg ("\n" ++ sep60),
        Event.msg "Training completed successfully! Starting geometry export...",
        Event.msg sep60]
      let config_path := runConfigPath base_dir experiment_name method
      if w.pathExists config_path then
        if method = "splatfacto" then
          let evD := evB ++ [Event.msg "üìä Exporting Gaussian Splat for splatfacto model..."]
          let er := export_gaussian_splat w timestamp config_path experiment_log_dir
          match er.1 with
          | .raised m => (.raised m, evD ++ er.2)
          | .exited c => (.exited c, evD ++ er.2)
          | .ret export_success =>
            (.ret training_success,
             evD ++ er.2 ++
               [if export_success then
                  Event.msg "‚úÖ Gaussian splat export completed successfully!"
                else
                  Event.msg "‚ùå Gaussian splat export failed. Check the export logs."])
        else if method = "nerfacto" then
          let evD := evB ++ [Event.msg "üîµ Exporting Pointcloud for nerfacto model..."]
          let er := export_pointcloud w timestamp config_path experiment_log_dir
            pointcloud_params.num_points pointcloud_params.remove_outliers
            pointcloud_params.normal_method pointcloud_params.save_world_frame
          match er.1 with
          | .raised m => (.raised m, evD ++ er.2)
          | .exited c => (.exited c, evD ++ er.2)
          | .ret export_success =>
            (.ret training_success,
             evD ++ er.2 ++
               [if export_success then
                  Event.msg "‚úÖ Pointcloud export completed successfully!"
                else
                  Event.msg "‚ùå Pointcloud export failed. Check the export logs."])
        else
          (.ret training_success,
           evB ++ [Event.msg ("‚ÑπÔ∏è  No automatic export configured for method: " ++ method),
                   Event.msg "   Supported methods for automatic export: splatfacto, nerfacto"])
      else
        (.ret training_success,
         evB ++ [Event.msg ("‚ùå Config file not found at: " ++ config_path),
                 Event.msg "Cannot proceed with geometry export."])
    else
      (.ret training_success, ev0)

/-- Classifier: is the event a process spawn? -/
def Event.isSpawn : Event → Bool
  | .spawn _ _ => true
  | _ => false

/-- Classifier: is the event a truncating open of a log file? -/
def Event.isOpenTrunc : Event → Bool
  | .openTrunc _ => true
  | _ => false

/-- Classifier: a spawn of the export tool (argv head `ns-export`). -/
def Event.isExportSpawn : Event → Bool
  | .spawn cmd _ => cmd.head? == some "ns-export"
  | _ => false

/-- Classifier: the `\nEXCEPTION: ...\n` marker the export handlers append to
their log file. -/
def Event.isExceptionMarker : Event → Bool
  | .append _ s => pyStartsWith s "\nEXCEPTION: "
  | _ => false

/-- The parameter-snapshot writes of a trace, in order. -/
def paramWrites (tr : List Event) : List (String × ParamsData) :=
  tr.filterMap fun e => match e with
    | .writeParams p d => some (p, d)
    | _ => none

/-- A concrete environment in which everything succeeds: config files exist,
the conda environment is active, opens succeed, and every spawn exits with
the given status and no output. -/
def okWorld (code : Int) : World :=
  { pathExists := fun _ => true
    condaEnv := "nerfstudio"
    spawn := fun _ => SpawnOutcome.exits code []
    openFails := fun _ => false
    listdir := fun _ => []
    duration := 3 }

/-- Like `okWorld`, but every spawn raises (e.g. the executable is missing). -/
def raiseWorld : World := { okWorld 0 with spawn := fun _ => SpawnOutcome.raises "boom" }

/-- Like `okWorld`, but no path exists. -/
def absWorld : World := { okWorld 0 with pathExists := fun _ => false }

/-- Like `okWorld`, but every open for writing fails. -/
def failOpenWorld : World := { okWorld 0 with openFails := fun _ => true }

/-- Like `raiseWorld`, but every open for writing also fails. -/
def raiseFailOpenWorld : World := { raiseWorld with openFails := fun _ => true }

/-- Like `okWorld 0`, except every command other than `ns-train` (in
particular any export command) exits with status 1. -/
def exportFailWorld : World :=
  { okWorld 0 with
    spawn := fun c =>
      if c.head? = some "ns-train" then SpawnOutcome.exits 0 []
      else SpawnOutcome.exits 1 [] }

theorem export_gaussian_splat_result (w : World) (ts cp od : String) (code : Int)
    (out : List String)
    (hconda : w.condaEnv = "nerfstudio")
    (hopen : ∀ p, w.openFails p = false)
    (hex : w.pathExists cp = true)
    (hspawn : w.spawn (gaussianExportCmd cp od) = .exits code out) :
    (export_gaussian_splat w ts cp od).1 = .ret (code == 0) := by
  by_cases h0 : code = 0 <;>
    simp [export_gaussian_splat, hex, get_conda_command_args, check_conda_environment,
      conda_env, hconda, hopen, hspawn, h0]

theorem export_pointcloud_result (w : World) (ts cp od : String) (np : Nat)
    (ro : Bool) (nm : String) (swf : Bool) (code : Int) (out : List String)
    (hconda : w.condaEnv = "nerfstudio")
    (hopen : ∀ p, w.openFails p = false)
    (hex : w.pathExists cp = true)
    (hspawn : w.spawn (pointcloudExportCmd cp od np ro nm swf) = .exits code out) :
    (export_pointcloud w ts cp od np ro nm swf).1 = .ret (code == 0) := by
  by_cases h0 : code = 0 <;>
    simp [export_pointcloud, hex, get_conda_command_args, check_conda_environment,
      conda_env, hconda, hopen, hspawn, h0]

theorem execute_training_result (w : World) (cmd : List String)
    (log_file params_file method base_dir experiment_name : String)
    (config : List String) (ts : String) (code : Int) (out : List String)
    (hopen : ∀ p, w.openFails p = false)
    (hspawn : w.spawn cmd = .exits code out) :
    (_execute_training w cmd log_file params_file method base_dir experiment_name
      config ts).1 = .ret (code == 0) := by
  simp [_execute_training, hopen, hspawn]

/-- C1: for each of the three operations (training execution, gaussian-splat
export, pointcloud export), when the child process is spawned and terminates,
the operation returns `true` iff the child's exit status equals 0 and `false`
iff it is nonzero — for every exit status, in particular 0, 1 and 127. -/
theorem C1_success_iff_exit_zero (w : World) (ts cp od : String) (np : Nat)
    (ro : Bool) (nm : String) (swf : Bool) (cmd : List String)
    (log_file params_file method base_dir experiment_name : String)
    (config : List String) (code : Int) (out : List String)
    (hconda : w.condaEnv = "nerfstudio")
    (hopen : ∀ p, w.openFails p = false)
    (hex : w.pathExists cp = true)
    (hspawn : ∀ c, w.spawn c = .exits code out) :
    ((export_gaussian_splat w ts cp od).1 = .ret true ↔ code = 0) ∧
    ((export_pointcloud w ts cp od np ro nm swf).1 = .ret true ↔ code = 0) ∧
    ((_execute_training w cmd log_file params_file method base_dir experiment_name
        config ts).1 = .ret true ↔ code = 0) ∧
    ((export_gaussian_splat w ts cp od).1 = .ret false ↔ code ≠ 0) ∧
    ((export_pointcloud w ts cp od np ro nm swf).1 = .ret false ↔ code ≠ 0) ∧
    ((_execute_training w cmd log_file params_file method base_dir experiment_name
        config ts).1 = .ret false ↔ code ≠ 0) := by
  rw [export_gaussian_splat_result w ts cp od code out hconda hopen hex (hspawn _),
    export_pointcloud_result w ts cp od np ro nm swf code out hconda hopen hex (hspawn _),
    execute_training_result w cmd log_file params_file method base_dir experiment_name
      config ts code out hopen (hspawn _)]
  simp [PyResult.ret.injEq, beq_iff_eq]

/-- Witness for C1, at exit statuses 0, 1 and 127. -/
theorem C1_success_iff_exit_zero_witness :
    (export_gaussian_splat (okWorld 0) "20250101_000000" "cfg.yml" "out").1 = .ret true ∧
    (export_pointcloud (okWorld 1) "20250101_000000" "cfg.yml" "out"
        1000000 true "open3d" false).1 = .ret false ∧
    (_execute_training (okWorld 127) ["ns-train", "m"] "t.log" "p.json" "m" "b" "e"
        [] "ts").1 = .ret false :=
  ⟨(C1_success_iff_exit_zero (okWorld 0) "20250101_000000" "cfg.yml" "out" 1000000
      true "open3d" false ["ns-train", "m"] "t.log" "p.json" "m" "b" "e" [] 0 []
      rfl (fun _ => rfl) rfl (fun _ => rfl)).1.mpr rfl,
   (C1_success_iff_exit_zero (okWorld 1) "20250101_000000" "cfg.yml" "out" 1000000
      true "open3d" false ["ns-train", "m"] "t.log" "p.json" "m" "b" "e" [] 1 []
      rfl (fun _ => rfl) rfl (fun _ => rfl)).2.2.2.2.1.mpr (by decide),
   (C1_success_iff_exit_zero (okWorld 127) "20250101_000000" "cfg.yml" "out" 1000000
      true "open3d" false ["ns-train", "m"] "t.log" "p.json" "m" "b" "e" [] 127 []
      rfl (fun _ => rfl) rfl (fun _ => rfl)).2.2.2.2.2.mpr (by decide)⟩

/-- C3: an export invocation (either variant) whose configuration-file path
does not name an existing file returns `false` immediately, spawns no child
process and performs no truncating open of a log file. -/
theorem C3_absent_config_short_circuit (w : World) (ts cp od : String) (np : Nat)
    (ro : Bool) (nm : String) (swf : Bool)
    (habs : w.pathExists cp = false) :
    (export_gaussian_splat w ts cp od).1 = .ret false ∧
    (export_gaussian_splat w ts cp od).2.countP Event.isSpawn = 0 ∧
    (export_gaussian_splat w ts cp od).2.countP Event.isOpenTrunc = 0 ∧
    (export_pointcloud w ts cp od np ro nm swf).1 = .ret false ∧
    (export_pointcloud w ts cp od np ro nm swf).2.countP Event.isSpawn = 0 ∧
    (export_pointcloud w ts cp od np ro nm swf).2.countP Event.isOpenTrunc = 0 := by
  simp [export_gaussian_splat, export_pointcloud, habs, Event.isSpawn, Event.isOpenTrunc,
    List.countP_cons, List.countP_nil]

/-- Witness for C3. -/
theorem C3_absent_config_short_circuit_witness :
    (export_gaussian_splat absWorld "ts" "missing.yml" "out").1 = .ret false ∧
    (export_gaussian_splat absWorld "ts" "missing.yml" "out").2.countP Event.isSpawn = 0 :=
  ⟨(C3_absent_config_short_circuit absWorld "ts" "missing.yml" "out" 5 true "open3d"
      false rfl).1,
   (C3_absent_config_short_circuit absWorld "ts" "missing.yml" "out" 5 true "open3d"
      false rfl).2.1⟩

theorem splitParams_foldl (config : List String) (dp gc : List String) :
    config.foldl
      (fun acc param =>
        if pyStartsWith param "--downscale-factor" then (acc.1 ++ pySplit param, acc.2)
        else (acc.1, acc.2 ++ pySplit param)) (dp, gc) =
      (dp ++ (config.filter (fun p => pyStartsWith p "--downscale-factor")).flatMap pySplit,
       gc ++ (config.filter (fun p => !(pyStartsWith p "--downscale-factor"))).flatMap pySplit) := by
  induction config generalizing dp gc with
  | nil => simp
  | cons p ps ih =>
    by_cases h : pyStartsWith p "--downscale-factor" <;>
      simp [h, ih, List.append_assoc]

/-- The partition loop, characterized: the dataparser-specific component is the
tokenization of the overrides with the recognized prefix, in order, and the
general component that of all the others. -/
theorem splitParams_eq (config : List String) :
    splitParams config =
      ((config.filter (fun p => pyStartsWith p "--downscale-factor")).flatMap pySplit,
       (config.filter (fun p => !(pyStartsWith p "--downscale-factor"))).flatMap pySplit) := by
  simpa [splitParams] using splitParams_foldl config [] []

/-- C4: the assembled training command places every override that begins with
the recognized flag prefix after the data-source-selector token and every
other override before it; on the spec's example, `--pipeline.model.x off`
lands before the selector and `--downscale-factor 4` after it. -/
theorem C4_override_ordering (method data_path experiment_name : String)
    (quit_viewer : Bool) (config : List String) (dataparser : String) :
    (nsTrainCmd method data_path experiment_name quit_viewer config dataparser =
      (nsTrainCmd method data_path experiment_name quit_viewer [] dataparser).dropLast ++
        (config.filter (fun p => !(pyStartsWith p "--downscale-factor"))).flatMap pySplit ++
        dataparser ::
          (config.filter (fun p => pyStartsWith p "--downscale-factor")).flatMap pySplit) ∧
    (let c := nsTrainCmd "splatfacto" "data" "exp" false
        ["--downscale-factor 4", "--pipeline.model.x off"] "nerfstudio-data"
     c.indexOf "--pipeline.model.x" < c.indexOf "nerfstudio-data" ∧
     c.indexOf "nerfstudio-data" < c.indexOf "--downscale-factor") := by
  refine ⟨?_, by decide⟩
  simp [nsTrainCmd, splitParams_eq, List.dropLast_concat]

theorem pySplitAux_no_whitespace : ∀ (cs cur : List Char),
    (∀ c ∈ cur, c.isWhitespace = false) →
    ∀ t ∈ pySplitAux cs cur, ∀ ch ∈ t.data, ch.isWhitespace = false := by
  intro cs
  induction cs with
  | nil =>
    intro cur hcur t ht
    by_cases h : cur.isEmpty <;> simp [pySplitAux, h] at ht
    subst ht
    intro ch hch
    exact hcur ch (by simpa using hch)
  | cons c cs ih =>
    intro cur hcur t ht
    rw [pySplitAux] at ht
    by_cases hw : c.isWhitespace = true
    · rw [if_pos hw] at ht
      by_cases hc : cur.isEmpty = true
      · rw [if_pos hc] at ht
        exact ih [] (by simp) t ht
      · rw [if_neg hc] at ht
        rcases List.mem_cons.mp ht with h | h
        · subst h
          intro ch hch
          exact hcur ch (by simpa using hch)
        · exact ih [] (by simp) t h
    · rw [if_neg hw] at ht
      refine ih (c :: cur) ?_ t ht
      intro x hx
      rcases List.mem_cons.mp hx with h | h
      · subst h
        simpa using hw
      · exact hcur x h

/-- Tokens produced by Python's `str.split()` never contain whitespace. -/
theorem pySplit_no_whitespace (s : String) :
    ∀ t ∈ pySplit s, ∀ ch ∈ t.data, ch.isWhitespace = false :=
  pySplitAux_no_whitespace s.data [] (by simp)

/-- C10: each override string is whitespace-tokenized into separate argv
tokens before assembly — no token of either partition component contains
whitespace, so an override whose value contains a space never survives as a
single argument — and the deferral test is a plain prefix test, also matching
overrides whose text merely begins with `--downscale-factor`. -/
theorem C10_tokenization_and_prefix_test (config : List String) (p : String)
    (hp : p ∈ config) :
    (∀ t ∈ (splitParams config).1, ∀ ch ∈ t.data, ch.isWhitespace = false) ∧
    (∀ t ∈ (splitParams config).2, ∀ ch ∈ t.data, ch.isWhitespace = false) ∧
    ((∃ ch ∈ p.data, ch.isWhitespace = true) →
      p ∉ (splitParams config).1 ∧ p ∉ (splitParams config).2) ∧
    (pyStartsWith p "--downscale-factor" = true →
      ∀ t ∈ pySplit p, t ∈ (splitParams config).1) ∧
    splitParams ["--downscale-factor-custom 8"] = (["--downscale-factor-custom", "8"], []) := by
  have h1 : ∀ t ∈ (splitParams config).1, ∀ ch ∈ t.data, ch.isWhitespace = false := by
    rw [splitParams_eq]
    intro t ht
    rcases List.mem_flatMap.mp ht with ⟨q, _, hq⟩
    exact pySplit_no_whitespace q t hq
  have h2 : ∀ t ∈ (splitParams config).2, ∀ ch ∈ t.data, ch.isWhitespace = false := by
    rw [splitParams_eq]
    intro t ht
    rcases List.mem_flatMap.mp ht with ⟨q, _, hq⟩
    exact pySplit_no_whitespace q t hq
  refine ⟨h1, h2, ?_, ?_, by decide⟩
  · rintro ⟨ch, hch, hws⟩
    constructor
    · intro hmem
      rw [h1 p hmem ch hch] at hws
      exact Bool.false_ne_true hws
    · intro hmem
      rw [h2 p hmem ch hch] at hws
      exact Bool.false_ne_true hws
  · intro h t ht
    rw [splitParams_eq]
    exact List.mem_flatMap.mpr ⟨p, List.mem_filter.mpr ⟨hp, h⟩, ht⟩

/-- Witness for C10 on the spec's example override list. -/
theorem C10_tokenization_and_prefix_test_witness :
    ("--pipeline.model.x off" ∉
      (splitParams ["--downscale-factor 4", "--pipeline.model.x off"]).2) ∧
    (∀ t ∈ pySplit "--downscale-factor 4",
      t ∈ (splitParams ["--downscale-factor 4", "--pipeline.model.x off"]).1) :=
  ⟨((C10_tokenization_and_prefix_test
      ["--downscale-factor 4", "--pipeline.model.x off"] "--pipeline.model.x off"
      (by decide)).2.2.1 ⟨' ', by decide, by decide⟩).2,
   (C10_tokenization_and_prefix_test
      ["--downscale-factor 4", "--pipeline.model.x off"] "--downscale-factor 4"
      (by decide)).2.2.2.1 (by decide)⟩

/-- C2 counterexample: for the training operation, a spawn failure is caught
and collapses to `False`, but NO exception marker is appended to the log file
— refuting the claim that every operation appends a marker on spawn
failure. -/
theorem C2_counterexample :
    (_execute_training raiseWorld ["ns-train", "m"] "t.log" "p.json" "m" "b" "e"
        [] "ts").1 = .ret false ∧
    (_execute_training raiseWorld ["ns-train", "m"] "t.log" "p.json" "m" "b" "e"
        [] "ts").2.countP Event.isExceptionMarker = 0 :=
  ⟨rfl, rfl⟩

/-- C2 (amended): spawn failures are caught in all three operations and
collapse to a `false` return; the exception marker is appended to the log file
by the two export operations but not by the training operation; and a failure
to open the log file in an export escapes the handler (whose own append
re-raises), so that case propagates instead of returning `false`. -/
theorem C2_amended_error_handling (w : World) (ts cp od : String) (np : Nat)
    (ro : Bool) (nm : String) (swf : Bool) (cmd : List String)
    (log_file params_file method base_dir experiment_name : String)
    (config : List String) (m : String)
    (hconda : w.condaEnv = "nerfstudio")
    (hex : w.pathExists cp = true)
    (hspawn : ∀ c, w.spawn c = .raises m) :
    ((∀ p, w.openFails p = false) →
      ((_execute_training w cmd log_file params_file method base_dir experiment_name
          config ts).1 = .ret false ∧
       (_execute_training w cmd log_file params_file method base_dir experiment_name
          config ts).2.countP Event.isExceptionMarker = 0) ∧
      ((export_gaussian_splat w ts cp od).1 = .ret false ∧
       Event.append (gaussian_log_file od ts) ("\nEXCEPTION: " ++ m ++ "\n") ∈
         (export_gaussian_splat w ts cp od).2) ∧
      ((export_pointcloud w ts cp od np ro nm swf).1 = .ret false ∧
       Event.append (pointcloud_log_file od ts) ("\nEXCEPTION: " ++ m ++ "\n") ∈
         (export_pointcloud w ts cp od np ro nm swf).2)) ∧
    ((∀ p, w.openFails p = true) →
      (export_gaussian_splat w ts cp od).1 =
        .raised (openErr (gaussian_log_file od ts))) := by
  constructor
  · intro hopen
    refine ⟨⟨?_, ?_⟩, ⟨?_, ?_⟩, ⟨?_, ?_⟩⟩
    · simp [_execute_training, hopen, hspawn]
    · simp only [_execute_training, hopen, hspawn]
      rfl
    · simp [export_gaussian_splat, hex, get_conda_command_args,
        check_conda_environment, conda_env, hconda, hopen, hspawn]
    · simp [export_gaussian_splat, hex, get_conda_command_args,
        check_conda_environment, conda_env, hconda, hopen, hspawn]
    · simp [export_pointcloud, hex, get_conda_command_args,
        check_conda_environment, conda_env, hconda, hopen, hspawn]
    · simp [export_pointcloud, hex, get_conda_command_args,
        check_conda_environment, conda_env, hconda, hopen, hspawn]
  · intro hopen
    simp [export_gaussian_splat, hex, get_conda_command_args,
      check_conda_environment, conda_env, hconda, hopen]

/-- Witness for the amended C2. -/
theorem C2_amended_error_handling_witness :
    (_execute_training raiseWorld ["ns-train", "m"] "t.log" "p.json" "m" "b" "e"
        [] "ts").2.countP Event.isExceptionMarker = 0 ∧
    Event.append (gaussian_log_file "out" "ts") ("\nEXCEPTION: " ++ "boom" ++ "\n") ∈
      (export_gaussian_splat raiseWorld "ts" "cfg" "out").2 ∧
    (export_gaussian_splat raiseFailOpenWorld "ts" "cfg" "out").1 =
      .raised (openErr (gaussian_log_file "out" "ts")) :=
  ⟨((C2_amended_error_handling raiseWorld "ts" "cfg" "out" 5 true "open3d" false
      ["ns-train", "m"] "t.log" "p.json" "m" "b" "e" [] "boom" rfl rfl
      (fun _ => rfl)).1 (fun _ => rfl)).1.2,
   ((C2_amended_error_handling raiseWorld "ts" "cfg" "out" 5 true "open3d" false
      ["ns-train", "m"] "t.log" "p.json" "m" "b" "e" [] "boom" rfl rfl
      (fun _ => rfl)).1 (fun _ => rfl)).2.1.2,
   (C2_amended_error_handling raiseFailOpenWorld "ts" "cfg" "out" 5 true "open3d"
      false ["ns-train", "m"] "t.log" "p.json" "m" "b" "e" [] "boom" rfl rfl
      (fun _ => rfl)).2 (fun _ => rfl)⟩

/-- C6 (exhibiting the defect): the pointcloud export delivers its assembled
argv verbatim to the external tool (`shell=False` semantics), but the
gaussian-splat export passes `shell=True` together with an argv LIST, so the
tool receives only `["ns-export"]` — none of the assembled flags
(`--load-config`, `--output-dir`) reach it. -/
theorem C6_shell_true_drops_gaussian_flags :
    (Event.spawn (gaussianExportCmd "cfg.yml" "out") true ∈
      (export_gaussian_splat (okWorld 0) "ts" "cfg.yml" "out").2) ∧
    deliveredArgv (gaussianExportCmd "cfg.yml" "out") true = ["ns-export"] ∧
    deliveredArgv (gaussianExportCmd "cfg.yml" "out") true ≠
      gaussianExportCmd "cfg.yml" "out" ∧
    (Event.spawn (pointcloudExportCmd "cfg.yml" "out" 1000000 true "open3d" false)
        false ∈
      (export_pointcloud (okWorld 0) "ts" "cfg.yml" "out" 1000000 true "open3d"
        false).2) ∧
    ∀ cmd : List String, deliveredArgv cmd false = cmd :=
  ⟨by decide, by decide, by decide, by decide, fun _ => rfl⟩

theorem teeEvents_nil (lf : String) : teeEvents lf [] = [] := rfl

theorem teeEvents_cons (lf l : String) (ls : List String) :
    teeEvents lf (l :: ls) = .msg l :: .append lf l :: teeEvents lf ls := by
  simp [teeEvents]

theorem paramWrites_nil : paramWrites [] = [] := rfl

theorem paramWrites_append (l1 l2 : List Event) :
    paramWrites (l1 ++ l2) = paramWrites l1 ++ paramWrites l2 := by
  simp [paramWrites]

theorem paramWrites_cons (e : Event) (l : List Event) :
    paramWrites (e :: l) =
      (match e with | Event.writeParams p d => [(p, d)] | _ => []) ++ paramWrites l := by
  cases e <;> simp [paramWrites]

theorem paramWrites_teeEvents (lf : String) (out : List String) :
    paramWrites (teeEvents lf out) = [] := by
  induction out with
  | nil => rfl
  | cons l ls ih => simp [teeEvents_cons, paramWrites_cons, ih]

/-- C8: a training run that terminates normally performs exactly two
parameter-snapshot writes, both to the same file; the second record is the
first one augmented with exactly `duration_seconds` and `return_code`, all
other fields (the timestamp key, method, base dir, experiment name, config,
environment label and command) unchanged. -/
theorem C8_snapshot_written_then_updated (w : World) (cmd : List String)
    (log_file params_file method base_dir experiment_name : String)
    (config : List String) (ts : String) (code : Int) (out : List String)
    (hopen : ∀ p, w.openFails p = false)
    (hspawn : w.spawn cmd = .exits code out) :
    ∃ d : ParamsData,
      paramWrites (_execute_training w cmd log_file params_file method base_dir
          experiment_name config ts).2 =
        [(params_file, d),
         (params_file,
          { d with duration_seconds := some w.duration, return_code := some code })] ∧
      d.timestamp = ts ∧ d.method = method ∧ d.base_dir = base_dir ∧
      d.experiment_name = experiment_name ∧ d.config = config ∧
      d.conda_environment = conda_env ∧ d.command = joinSpace cmd ∧
      d.duration_seconds = none ∧ d.return_code = none := by
  refine ⟨{ timestamp := ts, method := method, base_dir := base_dir,
            experiment_name := experiment_name, config := config,
            conda_environment := conda_env, command := joinSpace cmd }, ?_,
    rfl, rfl, rfl, rfl, rfl, rfl, rfl, rfl, rfl⟩
  simp [_execute_training, hopen, hspawn, paramWrites_append, paramWrites_cons,
    paramWrites_teeEvents, paramWrites_nil]

/-- Witness for C8 in a concrete succeeding environment. -/
theorem C8_snapshot_written_then_updated_witness :
    ∃ d : ParamsData,
      paramWrites (_execute_training (okWorld 0) ["ns-train", "m"] "t.log" "p.json"
          "m" "b" "e" [] "ts").2 =
        [("p.json", d),
         ("p.json",
          { d with duration_seconds := some (okWorld 0).duration, return_code := some 0 })] ∧
      d.timestamp = "ts" ∧ d.method = "m" ∧ d.base_dir = "b" ∧
      d.experiment_name = "e" ∧ d.config = [] ∧
      d.conda_environment = conda_env ∧ d.command = joinSpace ["ns-train", "m"] ∧
      d.duration_seconds = none ∧ d.return_code = none :=
  C8_snapshot_written_then_updated (okWorld 0) ["ns-train", "m"] "t.log" "p.json"
    "m" "b" "e" [] "ts" 0 [] (fun _ => rfl) rfl

theorem export_gaussian_no_raise (w : World) (ts cp od : String)
    (hconda : w.condaEnv = "nerfstudio")
    (hopen : ∀ p, w.openFails p = false) :
    ∃ b, (export_gaussian_splat w ts cp od).1 = .ret b := by
  by_cases hex : w.pathExists cp = true
  · rcases hs : w.spawn (gaussianExportCmd cp od) with m | ⟨code, out⟩
    · exact ⟨false, by simp [export_gaussian_splat, hex, get_conda_command_args,
        check_conda_environment, conda_env, hconda, hopen, hs]⟩
    · exact ⟨code == 0,
        export_gaussian_splat_result w ts cp od code out hconda hopen hex hs⟩
  · refine ⟨false, ?_⟩
    have hex' : w.pathExists cp = false := by simpa using hex
    simp [export_gaussian_splat, hex']

theorem export_pointcloud_no_raise (w : World) (ts cp od : String) (np : Nat)
    (ro : Bool) (nm : String) (swf : Bool)
    (hconda : w.condaEnv = "nerfstudio")
    (hopen : ∀ p, w.openFails p = false) :
    ∃ b, (export_pointcloud w ts cp od np ro nm swf).1 = .ret b := by
  by_cases hex : w.pathExists cp = true
  · rcases hs : w.spawn (pointcloudExportCmd cp od np ro nm swf) with m | ⟨code, out⟩
    · exact ⟨false, by simp [export_pointcloud, hex, get_conda_command_args,
        check_conda_environment, conda_env, hconda, hopen, hs]⟩
    · exact ⟨code == 0,
        export_pointcloud_result w ts cp od np ro nm swf code out hconda hopen hex hs⟩
  · refine ⟨false, ?_⟩
    have hex' : w.pathExists cp = false := by simpa using hex
    simp [export_pointcloud, hex']

/-- The boolean returned by `train_simple` equals the result of its training
phase (the export phase never alters it). -/
theorem train_simple_result (w : World) (ts method base_dir experiment_name : String)
    (config : List String) (dataparser : String) (eg qv : Bool)
    (hconda : w.condaEnv = "nerfstudio")
    (hopen : ∀ p, w.openFails p = false) :
    (train_simple w ts method base_dir experiment_name config dataparser eg qv).1 =
      (_try_conda_run w
        (nsTrainCmd method (dataPath base_dir) experiment_name qv config dataparser)
        (trainingLogFile base_dir experiment_name method ts)
        (trainingParamsFile base_dir experiment_name method ts)
        method base_dir experiment_name config ts).1 := by
  simp only [train_simple]
  rcases htr : (_try_conda_run w
      (nsTrainCmd method (dataPath base_dir) experiment_name qv config dataparser)
      (trainingLogFile base_dir experiment_name method ts)
      (trainingParamsFile base_dir experiment_name method ts)
      method base_dir experiment_name config ts).1 with b | m | c
  · by_cases hbe : (b && eg) = true
    · by_cases hpe : w.pathExists (runConfigPath base_dir experiment_name method) = true
      · by_cases hm1 : method = "splatfacto"
        · subst hm1
          rcases export_gaussian_no_raise w ts
            (runConfigPath base_dir experiment_name "splatfacto")
            (experimentLogDir base_dir experiment_name "splatfacto") hconda hopen
            with ⟨be, hbe'⟩
          simp [htr, hbe, hpe, hbe']
        · by_cases hm2 : method = "nerfacto"
          · subst hm2
            rcases export_pointcloud_no_raise w ts
              (runConfigPath base_dir experiment_name "nerfacto")
              (experimentLogDir base_dir experiment_name "nerfacto")
              pointcloud_params.num_points pointcloud_params.remove_outliers
              pointcloud_params.normal_method pointcloud_params.save_world_frame
              hconda hopen with ⟨be, hbe'⟩
            simp [htr, hbe, hpe, hm1, hbe']
          · simp [htr, hbe, hpe, hm1, hm2]
      · simp [htr, hbe, hpe]
    · simp [htr, hbe]
  · simp [htr]
  · simp [htr]

/-- C7: the boolean `train_simple` returns is determined by the training run
alone: two environments that agree on the conda variable, have no open
failures, and agree on the behaviour of the `ns-train` command — but may
disagree arbitrarily on the filesystem, on directory listings, on the clock,
and on what any export spawn does or returns — yield the same result. -/
theorem C7_export_cannot_change_training_result (w w' : World)
    (ts method base_dir experiment_name : String) (config : List String)
    (dataparser : String) (eg qv : Bool)
    (hconda : w.condaEnv = "nerfstudio") (hconda' : w'.condaEnv = "nerfstudio")
    (hopen : ∀ p, w.openFails p = false) (hopen' : ∀ p, w'.openFails p = false)
    (hsp : ∀ c, c.head? = some "ns-train" → w.spawn c = w'.spawn c) :
    (train_simple w ts method base_dir experiment_name config dataparser eg qv).1 =
    (train_simple w' ts method base_dir experiment_name config dataparser eg qv).1 := by
  rw [train_simple_result w ts method base_dir experiment_name config dataparser eg qv
      hconda hopen,
    train_simple_result w' ts method base_dir experiment_name config dataparser eg qv
      hconda' hopen']
  have hsp' := hsp
    (nsTrainCmd method (dataPath base_dir) experiment_name qv config dataparser) rfl
  rcases hs : w.spawn
      (nsTrainCmd method (dataPath base_dir) experiment_name qv config dataparser)
    with m | ⟨code, out⟩
  · have hs' : w'.spawn
        (nsTrainCmd method (dataPath base_dir) experiment_name qv config dataparser) =
        .raises m := by rw [← hsp']; exact hs
    simp [_try_conda_run, get_conda_command_args, check_conda_environment, conda_env,
      hconda, hconda', _execute_training, hopen, hopen', hs, hs']
  · have hs' : w'.spawn
        (nsTrainCmd method (dataPath base_dir) experiment_name qv config dataparser) =
        .exits code out := by rw [← hsp']; exact hs
    simp [_try_conda_run, get_conda_command_args, check_conda_environment, conda_env,
      hconda, hconda', _execute_training, hopen, hopen', hs, hs']

/-- Witness for C7: a world whose export spawns fail yields the same training
result as one where they succeed. -/
theorem C7_export_cannot_change_training_result_witness :
    (train_simple (okWorld 0) "ts" "splatfacto" "b" "e" [] "nerfstudio-data"
        true false).1 =
    (train_simple exportFailWorld "ts" "splatfacto" "b" "e" [] "nerfstudio-data"
        true false).1 :=
  C7_export_cannot_change_training_result (okWorld 0) exportFailWorld "ts"
    "splatfacto" "b" "e" [] "nerfstudio-data" true false rfl rfl
    (fun _ => rfl) (fun _ => rfl)
    (fun c hc => by simp [okWorld, exportFailWorld, hc])

theorem isExportSpawn_msg (s : String) : Event.isExportSpawn (.msg s) = false := rfl

theorem isExportSpawn_mkdirs (d : String) :
    Event.isExportSpawn (.mkdirs d) = false := rfl

theorem isExportSpawn_openTrunc (p : String) :
    Event.isExportSpawn (.openTrunc p) = false := rfl

theorem isExportSpawn_append (p s : String) :
    Event.isExportSpawn (.append p s) = false := rfl

theorem isExportSpawn_writeParams (p : String) (d : ParamsData) :
    Event.isExportSpawn (.writeParams p d) = false := rfl

theorem isExportSpawn_gaussian (cp od : String) :
    Event.isExportSpawn (Event.spawn (gaussianExportCmd cp od) true) = true := rfl

theorem isExportSpawn_pointcloud (cp od : String) (np : Nat) (ro : Bool)
    (nm : String) (swf : Bool) :
    Event.isExportSpawn
      (Event.spawn (pointcloudExportCmd cp od np ro nm swf) false) = true := rfl

theorem isExportSpawn_nsTrain (method dp en : String) (qv : Bool)
    (config : List String) (dataparser : String) :
    Event.isExportSpawn
      (Event.spawn (nsTrainCmd method dp en qv config dataparser) false) = false := rfl

theorem isExportSpawn_ite_msg (c : Prop) [Decidable c] (s t : String) :
    Event.isExportSpawn (if c then Event.msg s else Event.msg t) = false := by
  split <;> rfl

theorem countP_exportSpawn_teeEvents (lf : String) (out : List String) :
    (teeEvents lf out).countP Event.isExportSpawn = 0 := by
  induction out with
  | nil => rfl
  | cons l ls ih =>
    simp [teeEvents_cons, List.countP_cons, isExportSpawn_msg, isExportSpawn_append, ih]

theorem execute_training_no_exportSpawn (w : World) (cmd : List String)
    (lf pf method bd en : String) (config : List String) (ts : String)
    (hopen : ∀ p, w.openFails p = false)
    (hhead : Event.isExportSpawn (Event.spawn cmd false) = false) :
    (_execute_training w cmd lf pf method bd en config ts).2.countP
      Event.isExportSpawn = 0 := by
  rcases hs : w.spawn cmd with m | ⟨code, out⟩ <;>
    simp [_execute_training, hopen, hs, List.countP_append, List.countP_cons,
      List.countP_nil, isExportSpawn_msg, isExportSpawn_mkdirs, isExportSpawn_openTrunc,
      isExportSpawn_append, isExportSpawn_writeParams, hhead,
      countP_exportSpawn_teeEvents]

theorem try_conda_run_no_exportSpawn (w : World) (ns_cmd : List String)
    (lf pf method bd en : String) (config : List String) (ts : String)
    (hconda : w.condaEnv = "nerfstudio")
    (hopen : ∀ p, w.openFails p = false)
    (hhead : Event.isExportSpawn (Event.spawn ns_cmd false) = false) :
    (_try_conda_run w ns_cmd lf pf method bd en config ts).2.countP
      Event.isExportSpawn = 0 := by
  simp [_try_conda_run, get_conda_command_args, check_conda_environment, conda_env,
    hconda, List.countP_append, List.countP_cons, List.countP_nil, isExportSpawn_msg,
    execute_training_no_exportSpawn w ns_cmd lf pf method bd en config ts hopen hhead]

theorem try_conda_run_result (w : World) (ns_cmd : List String)
    (lf pf method bd en : String) (config : List String) (ts : String)
    (code : Int) (out : List String)
    (hconda : w.condaEnv = "nerfstudio")
    (hopen : ∀ p, w.openFails p = false)
    (hspawn : w.spawn ns_cmd = .exits code out) :
    (_try_conda_run w ns_cmd lf pf method bd en config ts).1 = .ret (code == 0) := by
  simp [_try_conda_run, get_conda_command_args, check_conda_environment, conda_env,
    hconda,
    execute_training_result w ns_cmd lf pf method bd en config ts code out hopen hspawn]

theorem export_gaussian_spawn_events (w : World) (ts cp od : String) (code : Int)
    (out : List String)
    (hconda : w.condaEnv = "nerfstudio") (hopen : ∀ p, w.openFails p = false)
    (hex : w.pathExists cp = true)
    (hspawn : w.spawn (gaussianExportCmd cp od) = .exits code out) :
    (export_gaussian_splat w ts cp od).2.countP Event.isExportSpawn = 1 ∧
    Event.spawn (gaussianExportCmd cp od) true ∈
      (export_gaussian_splat w ts cp od).2 := by
  constructor <;> by_cases h0 : code = 0 <;>
    simp [export_gaussian_splat, hex, get_conda_command_args, check_conda_environment,
      conda_env, hconda, hopen, hspawn, h0, List.countP_append, List.countP_cons,
      List.countP_nil, isExportSpawn_msg, isExportSpawn_mkdirs, isExportSpawn_openTrunc,
      isExportSpawn_append, isExportSpawn_gaussian, countP_exportSpawn_teeEvents,
      List.mem_append] <;>
    (rintro a x hx hply rfl; rfl)

theorem export_pointcloud_spawn_events (w : World) (ts cp od : String) (np : Nat)
    (ro : Bool) (nm : String) (swf : Bool) (code : Int) (out : List String)
    (hconda : w.condaEnv = "nerfstudio") (hopen : ∀ p, w.openFails p = false)
    (hex : w.pathExists cp = true)
    (hspawn : w.spawn (pointcloudExportCmd cp od np ro nm swf) = .exits code out) :
    (export_pointcloud w ts cp od np ro nm swf).2.countP Event.isExportSpawn = 1 ∧
    Event.spawn (pointcloudExportCmd cp od np ro nm swf) false ∈
      (export_pointcloud w ts cp od np ro nm swf).2 := by
  constructor <;> by_cases h0 : code = 0 <;>
    simp [export_pointcloud, hex, get_conda_command_args, check_conda_environment,
      conda_env, hconda, hopen, hspawn, h0, List.countP_append, List.countP_cons,
      List.countP_nil, isExportSpawn_msg, isExportSpawn_mkdirs, isExportSpawn_openTrunc,
      isExportSpawn_append, isExportSpawn_pointcloud, countP_exportSpawn_teeEvents,
      List.mem_append] <;>
    (rintro a x hx hply rfl; rfl)

/-- C5: after a successful training run with export requested and the result
descriptor present: method `"splatfacto"` dispatches exactly one export
spawn, the gaussian-splat command; method `"nerfacto"` dispatches exactly one
export spawn, the pointcloud command carrying the default table
(`num_points = 1000000`, `remove_outliers = True`, `normal_method = "open3d"`,
`save_world_frame = False`); any other method dispatches no export spawn and
prints the no-export notice. -/
theorem C5_export_dispatch (w : World) (ts method base_dir experiment_name : String)
    (config : List String) (dataparser : String) (qv : Bool)
    (code2 : Int) (out1 out2 : List String)
    (hconda : w.condaEnv = "nerfstudio")
    (hopen : ∀ p, w.openFails p = false)
    (htrain : w.spawn (nsTrainCmd method (dataPath base_dir) experiment_name qv
        config dataparser) = .exits 0 out1)
    (hex : w.pathExists (runConfigPath base_dir experiment_name method) = true) :
    (method = "splatfacto" →
      w.spawn (gaussianExportCmd (runConfigPath base_dir experiment_name method)
          (experimentLogDir base_dir experiment_name method)) = .exits code2 out2 →
      (train_simple w ts method base_dir experiment_name config dataparser true
          qv).2.countP Event.isExportSpawn = 1 ∧
      Event.spawn (gaussianExportCmd (runConfigPath base_dir experiment_name method)
          (experimentLogDir base_dir experiment_name method)) true ∈
        (train_simple w ts method base_dir experiment_name config dataparser true qv).2) ∧
    (method = "nerfacto" →
      w.spawn (pointcloudExportCmd (runConfigPath base_dir experiment_name method)
          (experimentLogDir base_dir experiment_name method) 1000000 true "open3d"
          false) = .exits code2 out2 →
      (train_simple w ts method base_dir experiment_name config dataparser true
          qv).2.countP Event.isExportSpawn = 1 ∧
      Event.spawn (pointcloudExportCmd (runConfigPath base_dir experiment_name method)
          (experimentLogDir base_dir experiment_name method) 1000000 true "open3d"
          false) false ∈
        (train_simple w ts method base_dir experiment_name config dataparser true qv).2) ∧
    (method ≠ "splatfacto" → method ≠ "nerfacto" →
      (train_simple w ts method base_dir experiment_name config dataparser true
          qv).2.countP Event.isExportSpawn = 0 ∧
      Event.msg ("‚ÑπÔ∏è  No automatic export configured for method: " ++ method) ∈
        (train_simple w ts method base_dir experiment_name config dataparser true qv).2) := by
  refine ⟨?_, ?_, ?_⟩
  · intro hm h2
    subst hm
    have htr : (_try_conda_run w
        (nsTrainCmd "splatfacto" (dataPath base_dir) experiment_name qv config dataparser)
        (trainingLogFile base_dir experiment_name "splatfacto" ts)
        (trainingParamsFile base_dir experiment_name "splatfacto" ts)
        "splatfacto" base_dir experiment_name config ts).1 = .ret true := by
      simpa using try_conda_run_result w
        (nsTrainCmd "splatfacto" (dataPath base_dir) experiment_name qv config dataparser)
        (trainingLogFile base_dir experiment_name "splatfacto" ts)
        (trainingParamsFile base_dir experiment_name "splatfacto" ts)
        "splatfacto" base_dir experiment_name config ts 0 out1 hconda hopen htrain
    have hcnt0 := try_conda_run_no_exportSpawn w
      (nsTrainCmd "splatfacto" (dataPath base_dir) experiment_name qv config dataparser)
      (trainingLogFile base_dir experiment_name "splatfacto" ts)
      (trainingParamsFile base_dir experiment_name "splatfacto" ts)
      "splatfacto" base_dir experiment_name config ts hconda hopen
      (isExportSpawn_nsTrain "splatfacto" (dataPath base_dir) experiment_name qv
        config dataparser)
    have hres := export_gaussian_splat_result w ts
      (runConfigPath base_dir experiment_name "splatfacto")
      (experimentLogDir base_dir experiment_name "splatfacto") code2 out2
      hconda hopen hex h2
    have hspn := export_gaussian_spawn_events w ts
      (runConfigPath base_dir experiment_name "splatfacto")
      (experimentLogDir base_dir experiment_name "splatfacto") code2 out2
      hconda hopen hex h2
    constructor
    · simp [train_simple, htr, hex, hres, hcnt0, hspn.1, List.countP_append,
        List.countP_cons, List.countP_nil, isExportSpawn_msg, isExportSpawn_mkdirs,
        isExportSpawn_ite_msg]
    · simp [train_simple, htr, hex, hres, hspn.2, List.mem_append, List.mem_cons]
  · intro hm h2
    subst hm
    have htr : (_try_conda_run w
        (nsTrainCmd "nerfacto" (dataPath base_dir) experiment_name qv config dataparser)
        (trainingLogFile base_dir experiment_name "nerfacto" ts)
        (trainingParamsFile base_dir experiment_name "nerfacto" ts)
        "nerfacto" base_dir experiment_name config ts).1 = .ret true := by
      simpa using try_conda_run_result w
        (nsTrainCmd "nerfacto" (dataPath base_dir) experiment_name qv config dataparser)
        (trainingLogFile base_dir experiment_name "nerfacto" ts)
        (trainingParamsFile base_dir experiment_name "nerfacto" ts)
        "nerfacto" base_dir experiment_name config ts 0 out1 hconda hopen htrain
    have hcnt0 := try_conda_run_no_exportSpawn w
      (nsTrainCmd "nerfacto" (dataPath base_dir) experiment_name qv config dataparser)
      (trainingLogFile base_dir experiment_name "nerfacto" ts)
      (trainingParamsFile base_dir experiment_name "nerfacto" ts)
      "nerfacto" base_dir experiment_name config ts hconda hopen
      (isExportSpawn_nsTrain "nerfacto" (dataPath base_dir) experiment_name qv
        config dataparser)
    have hres := export_pointcloud_result w ts
      (runConfigPath base_dir experiment_name "nerfacto")
      (experimentLogDir base_dir experiment_name "nerfacto") 1000000 true "open3d"
      false code2 out2 hconda hopen hex h2
    have hspn := export_pointcloud_spawn_events w ts
      (runConfigPath base_dir experiment_name "nerfacto")
      (experimentLogDir base_dir experiment_name "nerfacto") 1000000 true "open3d"
      false code2 out2 hconda hopen hex h2
    constructor
    · simp [train_simple, pointcloud_params, htr, hex, hres, hcnt0, hspn.1,
        List.countP_append, List.countP_cons, List.countP_nil, isExportSpawn_msg,
        isExportSpawn_mkdirs, isExportSpawn_ite_msg]
    · simp [train_simple, pointcloud_params, htr, hex, hres, hspn.2, List.mem_append,
        List.mem_cons]
  · intro hm1 hm2
    have htr : (_try_conda_run w
        (nsTrainCmd method (dataPath base_dir) experiment_name qv config dataparser)
        (trainingLogFile base_dir experiment_name method ts)
        (trainingParamsFile base_dir experiment_name method ts)
        method base_dir experiment_name config ts).1 = .ret true := by
      simpa using try_conda_run_result w
        (nsTrainCmd method (dataPath base_dir) experiment_name qv config dataparser)
        (trainingLogFile base_dir experiment_name method ts)
        (trainingParamsFile base_dir experiment_name method ts)
        method base_dir experiment_name config ts 0 out1 hconda hopen htrain
    have hcnt0 := try_conda_run_no_exportSpawn w
      (nsTrainCmd method (dataPath base_dir) experiment_name qv config dataparser)
      (trainingLogFile base_dir experiment_name method ts)
      (trainingParamsFile base_dir experiment_name method ts)
      method base_dir experiment_name config ts hconda hopen
      (isExportSpawn_nsTrain method (dataPath base_dir) experiment_name qv
        config dataparser)
    constructor
    · simp [train_simple, htr, hex, hm1, hm2, hcnt0, List.countP_append,
        List.countP_cons, List.countP_nil, isExportSpawn_msg, isExportSpawn_mkdirs]
    · simp [train_simple, htr, hex, hm1, hm2, List.mem_append, List.mem_cons]

/-- Witness for C5 at the three method classes. -/
theorem C5_export_dispatch_witness :
    (train_simple (okWorld 0) "ts" "splatfacto" "b" "e" [] "nerfstudio-data" true
        false).2.countP Event.isExportSpawn = 1 ∧
    (train_simple (okWorld 0) "ts" "nerfacto" "b" "e" [] "nerfstudio-data" true
        false).2.countP Event.isExportSpawn = 1 ∧
    (train_simple (okWorld 0) "ts" "vanilla" "b" "e" [] "nerfstudio-data" true
        false).2.countP Event.isExportSpawn = 0 :=
  ⟨((C5_export_dispatch (okWorld 0) "ts" "splatfacto" "b" "e" [] "nerfstudio-data"
      false 0 [] [] rfl (fun _ => rfl) rfl rfl).1 rfl rfl).1,
   ((C5_export_dispatch (okWorld 0) "ts" "nerfacto" "b" "e" [] "nerfstudio-data"
      false 0 [] [] rfl (fun _ => rfl) rfl rfl).2.1 rfl rfl).1,
   ((C5_export_dispatch (okWorld 0) "ts" "vanilla" "b" "e" [] "nerfstudio-data"
      false 0 [] [] rfl (fun _ => rfl) rfl rfl).2.2 (by decide) (by decide)).1⟩

end Nerfstudio
